import Mathlib

/-!
Shallow embedding of `src/PredictiveAnalytics/components/data_validation.py`
(class `DataValidation`): schema checks, the Evidently-report normalizer
`parse_evidently_metrics_to_profile_like`, and the orchestrator
`initiate_data_validation`.

Numbers coming from the JSON report are modelled as rationals; Python `None`
becomes `Option.none`; a Python run that raises becomes `Except.error`.
-/

namespace MLPrediction

/-- Boolean test that the first list is an initial segment of the second. -/
def listIsPfx : List Char → List Char → Bool
  | [], _ => true
  | _ :: _, [] => false
  | a :: as, b :: bs => a == b && listIsPfx as bs

/-- Boolean test that the first list occurs contiguously inside the second. -/
def listHasInfx (needle : List Char) : List Char → Bool
  | [] => needle.isEmpty
  | c :: rest => listIsPfx needle (c :: rest) || listHasInfx needle rest

/-- Python `sub in s`: substring containment. -/
def strContains (s sub : String) : Bool :=
  listHasInfx sub.data s.data

/-- Python `s.endswith(suffixStr)`. -/
def strEndsWith (s suffixStr : String) : Bool :=
  listIsPfx suffixStr.data.reverse s.data.reverse

/-- Python `int(q)`: truncation toward zero, i.e. the truncating integer
division of the numerator by the denominator. -/
def truncToInt (q : ℚ) : ℤ :=
  q.num.tdiv (q.den : ℤ)

/-- Rational division written through `mkRat` so that it evaluates inside the
kernel (the library's `Rat.mul` and `Rat.inv` are sealed); `qdiv_eq_div`
below proves it equal to ordinary division on `ℚ`. -/
def qdiv (a b : ℚ) : ℚ :=
  mkRat (a.num * b.den * b.num.sign) (a.den * b.num.natAbs)

/-- Rational one half written through `mkRat` so that it evaluates inside the
kernel; `mkRatHalf_eq` below proves it equal to `1 / 2`. -/
def mkRatHalf : ℚ := mkRat 1 2

/-- Python `round(q)` (no digits argument): round half to even.  The
fractional part `q - q.floor` is compared with `1 / 2` through the
equivalent integer comparison of `2 * q.num` with `(2 * q.floor + 1) * q.den`,
which evaluates inside the kernel. -/
def pyRound (q : ℚ) : ℤ :=
  let f := q.floor
  if 2 * q.num < (2 * f + 1) * (q.den : ℤ) then f
  else if (2 * f + 1) * (q.den : ℤ) < 2 * q.num then f + 1
  else if f % 2 = 0 then f else f + 1

/-- One entry of the raw report's `metrics` list, reduced to the fields the
normalizer reads: `config.type`, `metric_name`, `value.count`, `value.share`,
`config.drift_share`.  A field the JSON omits is `none`. -/
structure MetricRecord where
  configType : Option String
  metricName : Option String
  valueCount : Option ℚ
  valueShare : Option ℚ
  configDriftShare : Option ℚ
  deriving DecidableEq

/-- The raw drift report: `report_dict.get("metrics", [])`. -/
structure RawReport where
  metrics : List MetricRecord
  deriving DecidableEq

/-- The dict returned by `parse_evidently_metrics_to_profile_like`.  The
`drift_share_threshold` key is absent (`none`) in the no-match fallback
branch of the Python code, and present (`some`) otherwise. -/
structure DriftSummary where
  n_features : Option ℤ
  n_drifted_features : ℤ
  dataset_drift : Bool
  drift_share : ℚ
  drift_count : ℤ
  drift_share_threshold : Option ℚ
  deriving DecidableEq

/-- Match test for the drifted-columns metric entry:
`cfg_type.endswith("DriftedColumnsCount") or "DriftedColumnsCount" in
m.get("metric_name", "")`, with `cfg_type = m.get("config", \x7b\x7d).get("type", "")`. -/
def isDriftedColumnsMetric (m : MetricRecord) : Bool :=
  strEndsWith ((m.configType).getD "") "DriftedColumnsCount" ||
    strContains ((m.metricName).getD "") "DriftedColumnsCount"

/-- The `n_features` computation of the matched branch.  With no reference
table, Python runs `int(round(count / share))` when `share` is truthy; a
`None` count there raises a `TypeError`, modelled as `Except.error`. -/
def deriveNFeaturesE (count share : Option ℚ) (reference_df : Option ℕ) :
    Except String (Option ℤ) :=
  match reference_df with
  | some n => .ok (some (n : ℤ))
  | none =>
    match share with
    | some sv =>
      if sv = 0 then .ok none
      else
        match count with
        | some cv => .ok (some (pyRound (qdiv cv sv)))
        | none => .error "TypeError: unsupported operand type for /: NoneType and float"
    | none => .ok none

/-- The matched-metric branch of `parse_evidently_metrics_to_profile_like`
(source lines 181-212). -/
def matchedSummary (dm : MetricRecord) (reference_df : Option ℕ) :
    Except String DriftSummary :=
  let count := dm.valueCount
  let share := dm.valueShare
  match deriveNFeaturesE count share reference_df with
  | .error e => .error e
  | .ok n_features =>
    let drift_share_threshold := (dm.configDriftShare).getD mkRatHalf
    let dataset_drift : Bool :=
      match share with
      | none => false
      | some sv => decide (sv ≥ drift_share_threshold)
    .ok { n_features := n_features
          n_drifted_features := match count with | some c => truncToInt c | none => 0
          dataset_drift := dataset_drift
          drift_share := share.getD 0
          drift_count := match count with | some c => truncToInt c | none => 0
          drift_share_threshold := some drift_share_threshold }

/-- Shallow embedding of `parse_evidently_metrics_to_profile_like`: find the
first drifted-columns metric; if none, return the fallback dict (which has no
`drift_share_threshold` key); otherwise run the matched branch. -/
def parse_evidently_metrics_to_profile_like (report_dict : RawReport)
    (reference_df : Option ℕ) : Except String DriftSummary :=
  match report_dict.metrics.find? isDriftedColumnsMetric with
  | none =>
    .ok { n_features := reference_df.map (fun n => (n : ℤ))
          n_drifted_features := 0
          dataset_drift := false
          drift_share := 0
          drift_count := 0
          drift_share_threshold := none }
  | some dm => matchedSummary dm reference_df

/-- The schema configuration read from the YAML schema file: the three keys
the validators use. -/
structure SchemaConfig where
  columns : List String
  numerical_columns : List String
  categorical_columns : List String

/-- An in-memory table, reduced to what the validators read: its columns. -/
structure Table where
  columns : List String

/-- Shallow embedding of `validate_number_of_columns`. -/
def validate_number_of_columns (schema : SchemaConfig) (df : Table) : Bool :=
  let required_cols := schema.columns.length
  let actual_cols := df.columns.length
  required_cols == actual_cols

/-- Required numerical columns absent from the table. -/
def missing_numerical (schema : SchemaConfig) (df : Table) : List String :=
  schema.numerical_columns.filter (fun col => !(df.columns.contains col))

/-- Required categorical columns absent from the table. -/
def missing_categorical (schema : SchemaConfig) (df : Table) : List String :=
  schema.categorical_columns.filter (fun col => !(df.columns.contains col))

/-- Shallow embedding of `is_column_exist`: Python returns
`not (missing_numerical or missing_categorical)`, i.e. true iff both missing
lists are empty. -/
def is_column_exist (schema : SchemaConfig) (df : Table) : Bool :=
  (missing_numerical schema df).isEmpty && (missing_categorical schema df).isEmpty

/-- The artifact `initiate_data_validation` returns. -/
structure DataValidationArtifact where
  validation_status : Bool
  message : String
  drift_report_file_path : String

/-- The accumulated failure messages of `initiate_data_validation`, in source
order: count check on train, count check on test, existence check on train,
existence check on test. -/
def error_messages (schema : SchemaConfig) (train_df test_df : Table) : List String :=
  (if !(validate_number_of_columns schema train_df)
    then ["Training data: Column count mismatch."] else []) ++
  (if !(validate_number_of_columns schema test_df)
    then ["Test data: Column count mismatch."] else []) ++
  (if !(is_column_exist schema train_df)
    then ["Training data: Missing required columns."] else []) ++
  (if !(is_column_exist schema test_df)
    then ["Test data: Missing required columns."] else [])

/-- `validation_passed = len(error_messages) == 0`. -/
def validation_passed (schema : SchemaConfig) (train_df test_df : Table) : Bool :=
  (error_messages schema train_df test_df).length == 0

/-- `drift_status`: false unless validation passed, in which case it is the
value `detect_dataset_drift(train_df, test_df)` returns; the external engine
run is abstracted as the function argument `detect`. -/
def drift_status (schema : SchemaConfig) (train_df test_df : Table)
    (detect : Table → Table → Bool) : Bool :=
  if validation_passed schema train_df test_df then detect train_df test_df else false

/-- The `message` expression of `initiate_data_validation`. -/
def run_message (schema : SchemaConfig) (train_df test_df : Table)
    (detect : Table → Table → Bool) : String :=
  if drift_status schema train_df test_df detect then "Drift detected"
  else if validation_passed schema train_df test_df then "Drift not detected"
  else String.intercalate "; " (error_messages schema train_df test_df)

/-- Shallow embedding of `initiate_data_validation` (the part after the two
tables are loaded): run the four schema checks, accumulate messages, run
drift detection only on success, and build the artifact. -/
def initiate_data_validation (schema : SchemaConfig) (train_df test_df : Table)
    (detect : Table → Table → Bool) (drift_report_file_path : String) :
    DataValidationArtifact :=
  { validation_status := validation_passed schema train_df test_df
    message := run_message schema train_df test_df detect
    drift_report_file_path := drift_report_file_path }

/-- Decidable equality on `Except`, needed to evaluate runs of the normalizer
on concrete inputs. -/
instance {ε α : Type} [DecidableEq ε] [DecidableEq α] : DecidableEq (Except ε α) := fun a b =>
  match a, b with
  | .ok x, .ok y =>
    if h : x = y then .isTrue (by rw [h]) else .isFalse (fun hc => h (Except.ok.inj hc))
  | .error x, .error y =>
    if h : x = y then .isTrue (by rw [h]) else .isFalse (fun hc => h (Except.error.inj hc))
  | .ok _, .error _ => .isFalse (fun hc => Except.noConfusion hc)
  | .error _, .ok _ => .isFalse (fun hc => Except.noConfusion hc)

/-- Concrete matched metric for exercising the normalizer: count 3, share 3/5,
configured threshold 1/2. -/
def c1Metric : MetricRecord :=
  ⟨some "DriftedColumnsCount", none, some 3, some (mkRat 3 5), some mkRatHalf⟩

/-- Report holding only `c1Metric`. -/
def c1Report : RawReport := ⟨[c1Metric]⟩

/-- Normalizer output on `c1Report` with no reference table. -/
def c1Summary : DriftSummary := ⟨some 5, 3, true, mkRat 3 5, 3, some mkRatHalf⟩

/-- Concrete matched metric with share 0 and configured threshold 0. -/
def c2Metric : MetricRecord :=
  ⟨some "DriftedColumnsCount", none, some 0, some 0, some 0⟩

/-- Report holding only `c2Metric`. -/
def c2Report : RawReport := ⟨[c2Metric]⟩

/-- Normalizer output on `c2Report` with no reference table. -/
def c2Summary : DriftSummary := ⟨none, 0, true, 0, 0, some 0⟩

/-- Concrete matched metric with share 0 and no configured threshold. -/
def c2bMetric : MetricRecord :=
  ⟨some "DriftedColumnsCount", none, some 0, some 0, none⟩

/-- Report holding only `c2bMetric`. -/
def c2bReport : RawReport := ⟨[c2bMetric]⟩

/-- Normalizer output on `c2bReport` with no reference table. -/
def c2bSummary : DriftSummary := ⟨none, 0, false, 0, 0, some mkRatHalf⟩

/-- Report with an empty metrics list: no drifted-columns entry. -/
def c3Report : RawReport := ⟨[]⟩

/-- Normalizer output on `c3Report` with a 4-column reference table. -/
def c3Summary : DriftSummary := ⟨some 4, 0, false, 0, 0, none⟩

/-- Concrete matched metric whose type tag carries a module path and whose
config has no threshold. -/
def c3bMetric : MetricRecord :=
  ⟨some "evidently:metric_v2:DriftedColumnsCount", none, some 2, some (mkRat 1 4), none⟩

/-- Report holding only `c3bMetric`. -/
def c3bReport : RawReport := ⟨[c3bMetric]⟩

/-- Normalizer output on `c3bReport` with an 8-column reference table. -/
def c3bSummary : DriftSummary := ⟨some 8, 2, false, mkRat 1 4, 2, some mkRatHalf⟩

/-- Concrete metric record that is not a drifted-columns entry: its type tag
does not end with the signature and its name does not contain it. -/
def c4Metric : MetricRecord :=
  ⟨some "ValueDrift", some "ValueDrift(column=age)", some 1, some 1, none⟩

/-- Report holding only `c4Metric`, hence with no drifted-columns entry. -/
def c4Report : RawReport := ⟨[c4Metric]⟩

/-- Concrete matched metric with a known non-zero share and no count field. -/
def c5Metric : MetricRecord :=
  ⟨some "DriftedColumnsCount", none, none, some mkRatHalf, none⟩

/-- Report holding only `c5Metric`. -/
def c5Report : RawReport := ⟨[c5Metric]⟩

/-- Concrete matched metric with count 4, share 2/5 and threshold 1/2. -/
def c10Metric : MetricRecord :=
  ⟨some "DriftedColumnsCount", none, some 4, some (mkRat 2 5), some mkRatHalf⟩

/-- Report holding only `c10Metric`. -/
def c10Report : RawReport := ⟨[c10Metric]⟩

/-- Normalizer output on `c10Report` with a 10-column reference table. -/
def c10Summary : DriftSummary := ⟨some 10, 4, false, mkRat 2 5, 4, some mkRatHalf⟩

theorem qdiv_eq_div (a b : ℚ) : qdiv a b = a / b := by
  rcases eq_or_ne b 0 with hb | hb
  · subst hb
    simp [qdiv]
  · have hbnum : b.num ≠ 0 := Rat.num_ne_zero.mpr hb
    have haden : ((a.den : ℤ) : ℚ) ≠ 0 := by
      exact_mod_cast (Nat.cast_ne_zero (R := ℚ)).mpr (Rat.den_ne_zero a)
    have hbnq : ((b.num : ℚ)) ≠ 0 := Int.cast_ne_zero.mpr hbnum
    have key : a / b = ((a.num : ℚ) * (b.den : ℚ)) / ((a.den : ℚ) * (b.num : ℚ)) := by
      rw [div_eq_div_iff hb (mul_ne_zero (by exact_mod_cast haden) hbnq)]
      have h1 : a * ((a.den : ℚ) * (b.num : ℚ)) = (a * (a.den : ℚ)) * (b.num : ℚ) := by ring
      have h2 : ((a.num : ℚ) * (b.den : ℚ)) * b = (a.num : ℚ) * (b * (b.den : ℚ)) := by ring
      rw [h1, h2, Rat.mul_den_eq_num, Rat.mul_den_eq_num]
    rw [qdiv, Rat.mkRat_eq_divInt, Rat.divInt_eq_div, key]
    rcases hbnum.lt_or_lt with hn | hn
    · rw [Int.sign_eq_neg_one_of_neg hn]
      push_cast [Int.ofNat_natAbs_of_nonpos hn.le]
      rw [show (a.num : ℚ) * (b.den : ℚ) * (-1) = -((a.num : ℚ) * (b.den : ℚ)) by ring,
        show (a.den : ℚ) * -(b.num : ℚ) = -((a.den : ℚ) * (b.num : ℚ)) by ring,
        neg_div_neg_eq]
    · rw [Int.sign_eq_one_of_pos hn]
      push_cast [Int.natAbs_of_nonneg hn.le]
      ring_nf

theorem mkRatHalf_eq : mkRatHalf = 1 / 2 := by
  rw [mkRatHalf, Rat.mkRat_eq_divInt, Rat.divInt_eq_div]
  norm_num

theorem matchedSummary_ok_fields (dm : MetricRecord) (ref : Option ℕ) (s : DriftSummary)
    (h : matchedSummary dm ref = .ok s) :
    s.drift_share_threshold = some ((dm.configDriftShare).getD mkRatHalf)
    ∧ s.dataset_drift = (match dm.valueShare with
        | none => false
        | some sv => decide (sv ≥ (dm.configDriftShare).getD mkRatHalf))
    ∧ s.drift_share = (dm.valueShare).getD 0
    ∧ s.n_drifted_features =
        (match dm.valueCount with | some c => truncToInt c | none => 0)
    ∧ s.drift_count =
        (match dm.valueCount with | some c => truncToInt c | none => 0)
    ∧ deriveNFeaturesE dm.valueCount dm.valueShare ref = .ok s.n_features := by
  rcases hd : deriveNFeaturesE dm.valueCount dm.valueShare ref with e | nf
  · simp [matchedSummary, hd] at h
  · simp only [matchedSummary, hd] at h
    rw [Except.ok.injEq] at h
    subst h
    exact ⟨rfl, rfl, rfl, rfl, rfl, rfl⟩

theorem parse_of_find_some (report : RawReport) (ref : Option ℕ) (m : MetricRecord)
    (hfind : report.metrics.find? isDriftedColumnsMetric = some m) :
    parse_evidently_metrics_to_profile_like report ref = matchedSummary m ref := by
  rw [parse_evidently_metrics_to_profile_like, hfind]

theorem parse_of_find_none (report : RawReport) (ref : Option ℕ)
    (hfind : report.metrics.find? isDriftedColumnsMetric = none) :
    parse_evidently_metrics_to_profile_like report ref =
      .ok { n_features := ref.map (fun n => (n : ℤ))
            n_drifted_features := 0
            dataset_drift := false
            drift_share := 0
            drift_count := 0
            drift_share_threshold := none } := by
  rw [parse_evidently_metrics_to_profile_like, hfind]

/-- C1: for every raw drift report whose matched drifted-columns metric
carries a known (non-`none`) share, the normalizer's output satisfies
`dataset_drift = (drift_share ≥ drift_share_threshold)`; in particular
`drift_share = drift_share_threshold` yields `dataset_drift = true`; and when
the share is absent, `dataset_drift = false`. -/
theorem dataset_drift_matches_share_threshold_comparison
    (report : RawReport) (ref : Option ℕ) (m : MetricRecord) (s : DriftSummary)
    (hfind : report.metrics.find? isDriftedColumnsMetric = some m)
    (hok : parse_evidently_metrics_to_profile_like report ref = .ok s) :
    (m.valueShare ≠ none →
      ∃ t, s.drift_share_threshold = some t
        ∧ s.dataset_drift = decide (s.drift_share ≥ t)
        ∧ (s.drift_share = t → s.dataset_drift = true))
    ∧ (m.valueShare = none → s.dataset_drift = false) := by
  rw [parse_of_find_some report ref m hfind] at hok
  obtain ⟨hthr, hdrift, hshare, -, -, -⟩ := matchedSummary_ok_fields m ref s hok
  constructor
  · intro hsome
    rcases hsv : m.valueShare with - | sv
    · exact absurd hsv hsome
    · refine ⟨(m.configDriftShare).getD mkRatHalf, hthr, ?_, ?_⟩
      · rw [hdrift, hsv, hshare, hsv]
        rfl
      · intro heq
        rw [hdrift, hsv, ← heq, hshare, hsv]
        simp
  · intro hnone
    rw [hdrift, hnone]

/-- Witness for C1 at a concrete report: count 3, share 3/5, threshold 1/2,
no reference table. -/
theorem dataset_drift_matches_share_threshold_comparison_witness :
    (c1Metric.valueShare ≠ none →
      ∃ t, c1Summary.drift_share_threshold = some t
        ∧ c1Summary.dataset_drift = decide (c1Summary.drift_share ≥ t)
        ∧ (c1Summary.drift_share = t → c1Summary.dataset_drift = true))
    ∧ (c1Metric.valueShare = none → c1Summary.dataset_drift = false) :=
  dataset_drift_matches_share_threshold_comparison c1Report none c1Metric c1Summary
    (by decide) (by decide)

/-- C2 counterexample: a matched metric with share 0 and configured threshold
0 yields `dataset_drift = true`, not `false`, since the code's comparison
`share >= threshold` is inclusive. -/
theorem zero_share_zero_threshold_drift_true_counterexample :
    parse_evidently_metrics_to_profile_like c2Report none = .ok c2Summary
    ∧ c2Summary.dataset_drift = true := by
  constructor
  · decide
  · decide

/-- C2 amended: a matched metric with share 0 yields
`dataset_drift = (0 ≥ threshold)`: false whenever the effective threshold is
positive (in particular under the default 1/2), but true when the configured
threshold is 0 or negative. -/
theorem zero_share_drift_decided_by_threshold_sign
    (report : RawReport) (ref : Option ℕ) (m : MetricRecord) (s : DriftSummary)
    (hfind : report.metrics.find? isDriftedColumnsMetric = some m)
    (hshare : m.valueShare = some 0)
    (hok : parse_evidently_metrics_to_profile_like report ref = .ok s) :
    s.dataset_drift = decide ((0 : ℚ) ≥ (m.configDriftShare).getD (1 / 2)) := by
  rw [parse_of_find_some report ref m hfind] at hok
  obtain ⟨-, hdrift, -, -, -, -⟩ := matchedSummary_ok_fields m ref s hok
  rw [hdrift, hshare, mkRatHalf_eq]

/-- Witness for the amended C2 at a concrete report: share 0, no configured
threshold, so the default 1/2 applies and `dataset_drift` is false. -/
theorem zero_share_drift_decided_by_threshold_sign_witness :
    c2bSummary.dataset_drift = decide ((0 : ℚ) ≥ (c2bMetric.configDriftShare).getD (1 / 2)) :=
  zero_share_drift_decided_by_threshold_sign c2bReport none c2bMetric c2bSummary
    (by decide) (by decide) (by decide)

/-- C3 counterexample: on a report with no drifted-columns metric the
normalizer's output has no `drift_share_threshold` entry at all (modelled as
`none`), so the summary does not always carry that field. -/
theorem no_match_summary_omits_threshold_counterexample :
    parse_evidently_metrics_to_profile_like c3Report (some 4) = .ok c3Summary
    ∧ c3Summary.drift_share_threshold = none := by
  constructor
  · decide
  · decide

/-- C3 amended: when a drifted-columns metric is matched, the summary carries
`drift_share_threshold`, equal to the metric's configured `drift_share` when
present and to the default 1/2 otherwise; in the no-match fallback the
summary omits the field. -/
theorem threshold_present_iff_metric_matched (report : RawReport) (ref : Option ℕ) :
    (∀ m s, report.metrics.find? isDriftedColumnsMetric = some m →
        parse_evidently_metrics_to_profile_like report ref = .ok s →
        s.drift_share_threshold = some ((m.configDriftShare).getD (1 / 2)))
    ∧ (report.metrics.find? isDriftedColumnsMetric = none →
        ∃ s, parse_evidently_metrics_to_profile_like report ref = .ok s
          ∧ s.drift_share_threshold = none) := by
  constructor
  · intro m s hfind hok
    rw [parse_of_find_some report ref m hfind] at hok
    obtain ⟨hthr, -, -, -, -, -⟩ := matchedSummary_ok_fields m ref s hok
    rw [hthr, mkRatHalf_eq]
  · intro hfind
    exact ⟨_, parse_of_find_none report ref hfind, rfl⟩

/-- Witness for the amended C3 at a concrete report: matched metric with no
configured threshold and an 8-column reference table. -/
theorem threshold_present_iff_metric_matched_witness :
    c3bSummary.drift_share_threshold = some ((c3bMetric.configDriftShare).getD (1 / 2)) :=
  (threshold_present_iff_metric_matched c3bReport (some 8)).1 c3bMetric c3bSummary
    (by decide) (by decide)

/-- C4: a report in which no metric record matches the drifted-columns
signature is handled without error and yields `n_drifted_features = 0`,
`dataset_drift = false`, `drift_share = 0`, and `n_features` equal to the
reference table's column count when supplied, else `none`. -/
theorem no_match_fallback_summary (report : RawReport) (ref : Option ℕ)
    (hnone : ∀ m ∈ report.metrics, isDriftedColumnsMetric m = false) :
    parse_evidently_metrics_to_profile_like report ref =
      .ok { n_features := ref.map (fun n => (n : ℤ))
            n_drifted_features := 0
            dataset_drift := false
            drift_share := 0
            drift_count := 0
            drift_share_threshold := none } := by
  refine parse_of_find_none report ref (List.find?_eq_none.mpr ?_)
  intro m hm
  simp [hnone m hm]

/-- Witness for C4 at a concrete report holding one non-matching metric and a
3-column reference table. -/
theorem no_match_fallback_summary_witness :
    parse_evidently_metrics_to_profile_like c4Report (some 3) =
      .ok { n_features := (some 3 : Option ℕ).map (fun n => (n : ℤ))
            n_drifted_features := 0
            dataset_drift := false
            drift_share := 0
            drift_count := 0
            drift_share_threshold := none } :=
  no_match_fallback_summary c4Report (some 3) (by decide)

/-- C5 failing input: a matched metric whose value has `share = 1/2` but no
`count`, with no reference table supplied.  The code computes
`int(round(count / share))` with `count = None` and raises a `TypeError`
instead of defaulting the missing count to 0, so the normalizer is not total
on such inputs. -/
theorem missing_count_with_nonzero_share_raises :
    parse_evidently_metrics_to_profile_like c5Report none =
      .error "TypeError: unsupported operand type for /: NoneType and float" := by
  decide

/-- C6: the orchestrator's validation status is the conjunction of the four
schema checks; each of the four failure messages is accumulated exactly when
its check fails (no short-circuiting); drift detection contributes exactly
when validation passed (`drift_status = validation_status && detect`), so a
skipped drift run leaves the drift flag false; and the drift callback never
affects the validation status. -/
theorem initiate_validation_status_and_drift_gating
    (schema : SchemaConfig) (train_df test_df : Table)
    (detect : Table → Table → Bool) (path : String) :
    (initiate_data_validation schema train_df test_df detect path).validation_status =
        (validate_number_of_columns schema train_df &&
          validate_number_of_columns schema test_df &&
          is_column_exist schema train_df &&
          is_column_exist schema test_df)
    ∧ (error_messages schema train_df test_df).contains "Training data: Column count mismatch."
        = !(validate_number_of_columns schema train_df)
    ∧ (error_messages schema train_df test_df).contains "Test data: Column count mismatch."
        = !(validate_number_of_columns schema test_df)
    ∧ (error_messages schema train_df test_df).contains "Training data: Missing required columns."
        = !(is_column_exist schema train_df)
    ∧ (error_messages schema train_df test_df).contains "Test data: Missing required columns."
        = !(is_column_exist schema test_df)
    ∧ drift_status schema train_df test_df detect =
        ((initiate_data_validation schema train_df test_df detect path).validation_status
          && detect train_df test_df)
    ∧ (∀ d2 : Table → Table → Bool,
        (initiate_data_validation schema train_df test_df d2 path).validation_status =
          (initiate_data_validation schema train_df test_df detect path).validation_status) := by
  cases h1 : validate_number_of_columns schema train_df <;>
    cases h2 : validate_number_of_columns schema test_df <;>
      cases h3 : is_column_exist schema train_df <;>
        cases h4 : is_column_exist schema test_df <;>
          simp [initiate_data_validation, validation_passed, drift_status,
            error_messages, h1, h2, h3, h4]

/-- C7: the artifact's message is the error messages joined with a separator
when validation failed, and the fixed drift/no-drift string keyed on the
drift boolean when validation passed. -/
theorem initiate_message_composition
    (schema : SchemaConfig) (train_df test_df : Table)
    (detect : Table → Table → Bool) (path : String) :
    (initiate_data_validation schema train_df test_df detect path).message =
      (if validation_passed schema train_df test_df then
        (if detect train_df test_df then "Drift detected" else "Drift not detected")
      else String.intercalate "; " (error_messages schema train_df test_df)) := by
  cases hp : validation_passed schema train_df test_df <;>
    cases hd : detect train_df test_df <;>
      simp [initiate_data_validation, run_message, drift_status, hp, hd]

/-- C8: the column-count validator returns true exactly when the table's
column count equals the length of the schema's required-columns sequence. -/
theorem validate_number_of_columns_iff_length_eq (schema : SchemaConfig) (df : Table) :
    validate_number_of_columns schema df =
      decide (df.columns.length = schema.columns.length) := by
  rw [Bool.eq_iff_iff]
  unfold validate_number_of_columns
  simp only [beq_iff_eq, decide_eq_true_eq]
  exact eq_comm

/-- C9: the column-existence check returns false exactly when at least one
required numerical or categorical column name is absent from the table's
columns, and the list of missing names is non-empty exactly in that case. -/
theorem is_column_exist_iff_no_missing (schema : SchemaConfig) (df : Table) :
    is_column_exist schema df =
        ((missing_numerical schema df ++ missing_categorical schema df).isEmpty)
    ∧ is_column_exist schema df =
        ((schema.numerical_columns ++ schema.categorical_columns).all
          (fun col => df.columns.contains col))
    ∧ ((is_column_exist schema df = false) ↔
        ∃ col, (col ∈ schema.numerical_columns ∨ col ∈ schema.categorical_columns)
          ∧ col ∉ df.columns) := by
  have hiso : is_column_exist schema df =
      ((missing_numerical schema df ++ missing_categorical schema df).isEmpty) := by
    rw [Bool.eq_iff_iff]
    simp [is_column_exist]
  have hall : is_column_exist schema df =
      ((schema.numerical_columns ++ schema.categorical_columns).all
        (fun col => df.columns.contains col)) := by
    rw [Bool.eq_iff_iff]
    simp [is_column_exist, missing_numerical, missing_categorical,
      List.isEmpty_iff, List.filter_eq_nil_iff, List.all_eq_true, List.mem_append]
  refine ⟨hiso, hall, ?_⟩
  rw [hall, Bool.eq_false_iff, ne_eq, List.all_eq_true]
  push_neg
  simp [List.mem_append]

/-- C10: on every input the normalizer handles, the `drift_count` entry of
the output equals `n_drifted_features`: both are the matched metric's count
(truncated to an integer) when present, and 0 when the count is missing or
no drifted-columns metric matches. -/
theorem drift_count_always_equals_n_drifted_features
    (report : RawReport) (ref : Option ℕ) (s : DriftSummary)
    (hok : parse_evidently_metrics_to_profile_like report ref = .ok s) :
    s.drift_count = s.n_drifted_features
    ∧ (∀ m, report.metrics.find? isDriftedColumnsMetric = some m →
        s.drift_count = (match m.valueCount with | some c => truncToInt c | none => 0))
    ∧ (report.metrics.find? isDriftedColumnsMetric = none → s.drift_count = 0) := by
  rcases hfind : report.metrics.find? isDriftedColumnsMetric with - | m
  · rw [parse_of_find_none report ref hfind, Except.ok.injEq] at hok
    subst hok
    exact ⟨rfl, fun m hm => Option.noConfusion hm, fun _ => rfl⟩
  · rw [parse_of_find_some report ref m hfind] at hok
    obtain ⟨-, -, -, hndf, hdc, -⟩ := matchedSummary_ok_fields m ref s hok
    refine ⟨by rw [hndf, hdc], fun m2 hm2 => ?_, fun h => Option.noConfusion h⟩
    obtain rfl : m2 = m := (Option.some.inj hm2).symm
    exact hdc

/-- Witness for C10 at a concrete report: matched metric with count 4, share
2/5, threshold 1/2 and a 10-column reference table. -/
theorem drift_count_always_equals_n_drifted_features_witness :
    c10Summary.drift_count = c10Summary.n_drifted_features
    ∧ (∀ m, c10Report.metrics.find? isDriftedColumnsMetric = some m →
        c10Summary.drift_count = (match m.valueCount with | some c => truncToInt c | none => 0))
    ∧ (c10Report.metrics.find? isDriftedColumnsMetric = none →
        c10Summary.drift_count = 0) :=
  drift_count_always_equals_n_drifted_features c10Report (some 10) c10Summary (by decide)

end MLPrediction
